import Mathlib

/-!
Verification of the Tesla command-relay Azure function
(`azure-function/TeslaAPI/__init__.py`).

The Python module is embedded shallowly:

* JSON values (the parsed bodies that `resp.json()` / `req.get_json()`
  produce) become the mutual inductive `Json`; the Python operators the
  code applies to them (`in`, subscripting with a string key, truthiness,
  `str()`) become `pyContains`, `pyIndex`, `truthy`, `pyStr`, each raising
  the exception the interpreter would raise, modelled with `Except PyErr`.
* The network is an oracle: a `World` supplies the JSON payload of each
  successive `wake_up` poll, the status code and payload of the one
  command POST, whether the Telegram config file was loaded, and whether
  `Bot.send_message` succeeds or raises.
* The wake-up polling loop of `force_wakeup` is a step-indexed state
  machine (`wakeInit` / `wakeStep` / `wakeIter`); the `counter` variable
  of the source is carried in the state, and the loop is provably over
  after 16 iterations because `counter` grows by 2 per iteration and the
  loop raises once it exceeds `TIMEOUT_WAKEUP = 30`.
* Exceptions propagate as `Except.error`; `parse_post_request` catches
  exactly `(TimeoutError, KeyError)` around the wake-up, and `main`
  catches every exception of the POST branch, as in the source.
-/

mutual
/-- Parsed JSON values, as handed around by `resp.json()` and
`req.get_json()` in the source. Mutual with its item and field lists so
that every recursion below is structural. -/
inductive Json where
  | null : Json
  | bool (b : Bool) : Json
  | num (n : Int) : Json
  | str (s : String) : Json
  | arr (xs : JsonItems) : Json
  | obj (kvs : JsonFields) : Json
  deriving DecidableEq
inductive JsonItems where
  | nil : JsonItems
  | cons (hd : Json) (tl : JsonItems) : JsonItems
  deriving DecidableEq
inductive JsonFields where
  | nil : JsonFields
  | cons (k : String) (v : Json) (tl : JsonFields) : JsonFields
  deriving DecidableEq
end

/-- Build a `JsonFields` from a list literal. -/
def jfields : List (String × Json) → JsonFields
  | [] => .nil
  | kv :: tl => .cons kv.1 kv.2 (jfields tl)

/-- Build a `JsonItems` from a list literal. -/
def jitems : List Json → JsonItems
  | [] => .nil
  | x :: tl => .cons x (jitems tl)

/-- Convenience constructor for JSON objects. -/
def jobj (l : List (String × Json)) : Json := Json.obj (jfields l)

/-- Convenience constructor for JSON arrays. -/
def jarr (l : List Json) : Json := Json.arr (jitems l)

/-- `k` is a key of the object fields (Python `k in dict`). -/
def fieldsHasKey : JsonFields → String → Bool
  | .nil, _ => false
  | .cons k _ tl, key => k == key || fieldsHasKey tl key

/-- First value bound to `key` (Python `dict[key]` when present). -/
def fieldsFind : JsonFields → String → Option Json
  | .nil, _ => none
  | .cons k v tl, key => if k == key then some v else fieldsFind tl key

/-- Python `key in list` for a string `key`: some element equals the
string. A non-string element never equals a `str` in Python. -/
def itemsHasStr : JsonItems → String → Bool
  | .nil, _ => false
  | .cons (Json.str s) tl, key => s == key || itemsHasStr tl key
  | .cons _ tl, key => itemsHasStr tl key

/-- `pat` is a prefix of the second character list. -/
def listHasPref : List Char → List Char → Bool
  | [], _ => true
  | _ :: _, [] => false
  | c :: cs, d :: ds => c == d && listHasPref cs ds

/-- `pat` occurs as a contiguous sublist (Python substring test). -/
def listHasSub (pat : List Char) : List Char → Bool
  | [] => pat.isEmpty
  | d :: ds => listHasPref pat (d :: ds) || listHasSub pat ds

/-- Python `pat in s` on strings: substring occurrence. -/
def strHasSub (s pat : String) : Bool := listHasSub pat.toList s.toList

/-- The Python exceptions the module can raise or meet: `KeyError`,
`TypeError`, `TimeoutError`, and a catch-all for every other
`Exception` (`ValueError` from `get_json`, Telegram send failures, ...). -/
inductive PyErr where
  | keyError (msg : String) : PyErr
  | typeError (msg : String) : PyErr
  | timeoutError (msg : String) : PyErr
  | exn (msg : String) : PyErr
  deriving DecidableEq

/-- Python `str(e)` on an exception: `KeyError` shows its argument
repr-quoted, the others show the plain message. -/
def pyStrOfErr : PyErr → String
  | .keyError m => "\x27" ++ m ++ "\x27"
  | .typeError m => m
  | .timeoutError m => m
  | .exn m => m

/-- Python truthiness of a parsed-JSON value. -/
def truthy : Json → Bool
  | .null => false
  | .bool b => b
  | .num n => n != 0
  | .str s => s != ""
  | .arr .nil => false
  | .arr _ => true
  | .obj .nil => false
  | .obj _ => true

/-- Python `key in j` for a string `key`: key test on a dict, substring
test on a str, membership on a list, `TypeError` otherwise. -/
def pyContains (j : Json) (key : String) : Except PyErr Bool :=
  match j with
  | .obj kvs => .ok (fieldsHasKey kvs key)
  | .str s => .ok (strHasSub s key)
  | .arr xs => .ok (itemsHasStr xs key)
  | _ => .error (.typeError "argument of type is not iterable")

/-- Python `j[key]` for a string `key`: dict lookup raising `KeyError`
when absent, `TypeError` on every other value. -/
def pyIndex (j : Json) (key : String) : Except PyErr Json :=
  match j with
  | .obj kvs =>
    match fieldsFind kvs key with
    | some v => .ok v
    | none => .error (.keyError key)
  | .str _ => .error (.typeError "string indices must be integers")
  | .arr _ => .error (.typeError "list indices must be integers or slices, not str")
  | _ => .error (.typeError "object is not subscriptable")

mutual
/-- Python `repr` of a parsed-JSON value (what `str` shows inside
containers). -/
def pyRepr : Json → String
  | .null => "None"
  | .bool true => "True"
  | .bool false => "False"
  | .num n => toString n
  | .str s => "\x27" ++ s ++ "\x27"
  | .arr xs => "[" ++ pyReprItems xs ++ "]"
  | .obj kvs => "\x7b" ++ pyReprFields kvs ++ "\x7d"
def pyReprItems : JsonItems → String
  | .nil => ""
  | .cons x .nil => pyRepr x
  | .cons x tl => pyRepr x ++ ", " ++ pyReprItems tl
def pyReprFields : JsonFields → String
  | .nil => ""
  | .cons k v .nil => "\x27" ++ k ++ "\x27: " ++ pyRepr v
  | .cons k v tl => "\x27" ++ k ++ "\x27: " ++ pyRepr v ++ ", " ++ pyReprFields tl
end

/-- Python `str` of a parsed-JSON value: a top-level str prints bare,
containers print via `repr`. Used by `"%s" % resp_content`. -/
def pyStr : Json → String
  | .str s => s
  | j => pyRepr j

/-- `TIMEOUT_WAKEUP = 30` (module constant, line 16). -/
def TIMEOUT_WAKEUP : Nat := 30

/-- `COMMAND_ADAPTER` (lines 19-45): logical command name to Tesla
vendor command name. -/
def COMMAND_ADAPTER : List (String × String) :=
  [("wake_up", "wake_up"),
   ("stop_hvac", "auto_conditioning_stop"),
   ("start_hvac", "auto_conditioning_start"),
   ("start_hvac_max", "set_preconditioning_max"),
   ("set_temps", "set_temps"),
   ("honk_horn", "honk_horn"),
   ("flash_lights", "flash_lights"),
   ("actuate_trunk", "actuate_trunk"),
   ("actuate_frunk", "actuate_trunk"),
   ("start_remote_drive", "remote_start_drive"),
   ("start_sentry", "set_sentry_mode"),
   ("stop_sentry", "set_sentry_mode"),
   ("start_valet_mode", "set_valet_mode"),
   ("stop_valet_mode", "set_valet_mode"),
   ("unlock_doors", "door_unlock"),
   ("lock_doors", "door_lock"),
   ("open_charge_port_door", "charge_port_door_open"),
   ("close_charge_port_door", "charge_port_door_close"),
   ("start_charging", "charge_start"),
   ("stop_charging", "charge_stop"),
   ("set_charge_limit", "set_charge_limit"),
   ("charge_standard", "charge_standard"),
   ("charge_max_range", "charge_max_range"),
   ("close_windows", "window_control"),
   ("vent_windows", "window_control")]

/-- The validated request body (pydantic `RequestModel`). `FORCE_WAKEUP`
is declared `Optional[bool] = False`; only its truthiness is ever used,
so it is carried as a `Bool`. -/
structure RequestModel where
  TOKEN : String
  VEHICLE_ID : String
  INPUT_CMD : String
  VEHICLE_TEMP : Option String := none
  VEHICLE_CHARGE_LIMIT : Option String := none
  FORCE_WAKEUP : Bool := false
  deriving DecidableEq

/-- An optional string field as it is serialized into the outbound JSON
body (`None` becomes JSON null). -/
def optStrJson : Option String → Json
  | some s => Json.str s
  | none => Json.null

/-- `gather_body_params` (lines 110-143): JSON body of the outbound
command call. The source is a cascade of `if` blocks whose unmatched
inner branches fall through to the later tests; the fall-through
composes into this single chain. -/
def gather_body_params (command : String) (command_translated : String) (model : RequestModel) : Json :=
  if command_translated == "actuate_trunk" && command == "actuate_frunk" then
    jobj [("which_trunk", Json.str "front")]
  else if command_translated == "actuate_trunk" && command == "actuate_trunk" then
    jobj [("which_trunk", Json.str "rear")]
  else if command_translated == "set_sentry_mode" && command == "start_sentry" then
    jobj [("on", Json.bool true)]
  else if command_translated == "set_sentry_mode" && command == "stop_sentry" then
    jobj [("on", Json.bool false)]
  else if command_translated == "set_valet_mode" && command == "start_valet_mode" then
    jobj [("on", Json.bool true)]
  else if command_translated == "set_valet_mode" && command == "stop_valet_mode" then
    jobj [("on", Json.bool false)]
  else if command_translated == "window_control" && command == "close_windows" then
    jobj [("command", Json.str "close"), ("lat", Json.num 0), ("lon", Json.num 0)]
  else if command_translated == "window_control" && command == "vent_windows" then
    jobj [("command", Json.str "vent"), ("lat", Json.num 0), ("lon", Json.num 0)]
  else if command_translated == "set_temps" then
    jobj [("driver_temp", optStrJson model.VEHICLE_TEMP)]
  else if command_translated == "set_charge_limit" then
    jobj [("percent", optStrJson model.VEHICLE_CHARGE_LIMIT)]
  else
    jobj []

/-- Python `value == "online"`: true exactly on the identical string. -/
def jsonEqStr (j : Json) (s : String) : Bool :=
  match j with
  | .str t => t == s
  | _ => false

/-- `__is_tesla_awake` (lines 169-177) applied to the parsed wake-poll
payload: raises the module's `KeyError` when the `response`/`state`
fields are missing, otherwise reports whether `state == "online"`.
The subscripting itself can raise a `TypeError` on non-dict payloads,
exactly as in the interpreter. -/
def is_tesla_awake (resp_content : Json) : Except PyErr Bool :=
  match pyContains resp_content "response" with
  | .error e => .error e
  | .ok false => .error (.keyError ("Wakeup Response looks unfamiliar: " ++ pyStr resp_content))
  | .ok true =>
    match pyIndex resp_content "response" with
    | .error e => .error e
    | .ok inner =>
      match pyContains inner "state" with
      | .error e => .error e
      | .ok false => .error (.keyError ("Wakeup Response looks unfamiliar: " ++ pyStr resp_content))
      | .ok true =>
        match pyIndex inner "state" with
        | .error e => .error e
        | .ok st => .ok (jsonEqStr st "online")

/-- Message of the `TimeoutError` raised by `force_wakeup`
(`"Waited %i seconds ..." % TIMEOUT_WAKEUP`). -/
def timeoutErrorMsg : String :=
  "Waited " ++ toString TIMEOUT_WAKEUP ++ " seconds for Tesla to wakeup but it didn\x27t!"

/-- State of the `force_wakeup` polling loop. `running counter` holds the
source's `counter` variable, which also equals the seconds slept inside
the loop so far; `done elapsed` / `timedOut elapsed` record the total
seconds slept when the call returns or raises. -/
inductive LoopState where
  | running (counter : Nat) : LoopState
  | done (elapsed : Nat) : LoopState
  | timedOut (elapsed : Nat) : LoopState
  | failed (e : PyErr) : LoopState
  deriving DecidableEq

/-- The code before the loop: one poll; online means only the final
settle `time.sleep(2)` runs. -/
def wakeInit (r : Json) : LoopState :=
  match is_tesla_awake r with
  | .error e => .failed e
  | .ok true => .done 2
  | .ok false => .running 0

/-- One iteration of the `while not tesla_awake` body on poll payload
`r`: `time.sleep(2)`; poll; `counter += 2`; raise `TimeoutError` once
`counter > TIMEOUT_WAKEUP` (this check runs before the loop condition
sees the new poll result); otherwise exit the loop when awake (plus the
settle sleep) or keep running. Absorbing on finished states. -/
def wakeStep (r : Json) (s : LoopState) : LoopState :=
  match s with
  | .running counter =>
    match is_tesla_awake r with
    | .error e => .failed e
    | .ok awake =>
      if counter + 2 > TIMEOUT_WAKEUP then .timedOut (counter + 2)
      else if awake then .done (counter + 2 + 2)
      else .running (counter + 2)
  | s => s

/-- State of the wake-up gate after the initial poll (`wakeIter polls 0`)
and `n` loop iterations; iteration `n` consumes poll payload `polls n`. -/
def wakeIter (polls : Nat → Json) : Nat → LoopState
  | 0 => wakeInit (polls 0)
  | n + 1 => wakeStep (polls (n + 1)) (wakeIter polls n)

/-- `force_wakeup` (lines 153-166). The loop can run at most 16
iterations (`counter` reaches 32 > 30 there), so the state after 16
iterations is final; `wakeIter_sixteen_not_running` below proves the
`running` branch unreachable. On success the returned value is the total
seconds slept, an observation used to state the timing claims. -/
def force_wakeup (polls : Nat → Json) : Except PyErr Nat :=
  match wakeIter polls 16 with
  | .done e => .ok e
  | .timedOut _ => .error (.timeoutError timeoutErrorMsg)
  | .failed e => .error e
  | .running _ => .error (.timeoutError timeoutErrorMsg)


/-- The three shapes ever passed as `message` to `respond`: a plain
string, the wake-failure dict `{"Error while waking up": str(e)}`, and
the upstream-error dict `{"Tesla API error": payload}`. -/
inductive Msg where
  | text (s : String) : Msg
  | wakeErr (s : String) : Msg
  | apiErr (payload : Json) : Msg
  deriving DecidableEq

/-- The `message` value as it appears inside the serialized envelope. -/
def msgToJson : Msg → Json
  | .text s => Json.str s
  | .wakeErr s => jobj [("Error while waking up", Json.str s)]
  | .apiErr p => jobj [("Tesla API error", p)]

/-- The dict `{"command": ..., "msg": ..., "statusCode": ...}` built by
`respond` (line 181). -/
def envelopeJson (command : String) (message : Msg) (status_code : Nat) : Json :=
  jobj [("command", Json.str command),
        ("msg", msgToJson message),
        ("statusCode", Json.num (Int.ofNat status_code))]

/-- The `func.HttpResponse` constructed at lines 193-195: serialized
envelope body, HTTP status, headers. -/
structure HttpResponse where
  body : Json
  status_code : Nat
  headers : List (String × String)
  deriving DecidableEq

/-- `func.HttpResponse(json.dumps(response), status_code=..., headers=...)`. -/
def mkHttpResponse (body : Json) (status_code : Nat) : HttpResponse :=
  ⟨body, status_code, [("Content-Type", "application/json")]⟩

/-- Contents of `telegram_config.json` when present. -/
structure TelegramConfig where
  token : String
  chatId : String
  deriving DecidableEq

/-- Whether `Bot.send_message` succeeds or raises (network failure, bad
credentials, ...). -/
inductive NotifyBehavior where
  | succeeds : NotifyBehavior
  | raises (msg : String) : NotifyBehavior
  deriving DecidableEq

/-- Upstream reply of the one outbound command POST: HTTP status plus
the parsed JSON payload. `requests.Response.ok` is `status_code < 400`. -/
structure UpstreamResponse where
  status_code : Nat
  payload : Json

/-- `resp.ok` of the requests library. -/
def respOk (r : UpstreamResponse) : Bool := r.status_code < 400

/-- The environment of one invocation: wake-poll payloads in call order,
the command POST reply, the loaded Telegram config (None when the config
file is absent), and the send behaviour of the bot. -/
structure World where
  polls : Nat → Json
  command_resp : UpstreamResponse
  telegram : Option TelegramConfig
  notify : NotifyBehavior

/-- The condition at lines 184-185 deciding between the canned
asleep-message and the full envelope: Python
`"Tesla API error" in message and "error" in message["Tesla API error"]
and "vehicle unavailable" in message["Tesla API error"]["error"]`,
with the exceptions the interpreter raises on odd shapes. -/
def teslaAsleepCheck (message : Msg) : Except PyErr Bool :=
  match message with
  | .text s =>
    if strHasSub s "Tesla API error" then .error (.typeError "string indices must be integers")
    else .ok false
  | .wakeErr _ => .ok false
  | .apiErr p =>
    match pyContains p "error" with
    | .error e => .error e
    | .ok false => .ok false
    | .ok true =>
      match pyIndex p "error" with
      | .error e => .error e
      | .ok v => pyContains v "vehicle unavailable"

/-- `respond` (lines 180-195). When the Telegram bot is loaded and the
status is not 200, the asleep-check runs and `send_message` is called
before the `HttpResponse` is built; an exception from either aborts
`respond` without producing a response. -/
def respond (w : World) (message : Msg) (command : String) (status_code : Nat) : Except PyErr HttpResponse :=
  if w.telegram.isSome && status_code != 200 then
    match teslaAsleepCheck message with
    | .error e => .error e
    | .ok _asleep =>
      match w.notify with
      | .succeeds => .ok (mkHttpResponse (envelopeJson command message status_code) status_code)
      | .raises em => .error (.exn em)
  else .ok (mkHttpResponse (envelopeJson command message status_code) status_code)

/-- Lines 89-107 of `parse_post_request`: the outbound POST (its body is
`gather_body_params`, its reply comes from the oracle) and the response
classification. `resp.json()` runs first; then `401` and other non-ok
statuses, then the `"response"`/`result` check on ok statuses, whose
subscripting raises exactly where the interpreter would. -/
def classify_command_response (model : RequestModel) (command_translated : String) (w : World) : Except PyErr HttpResponse :=
  let _body := gather_body_params model.INPUT_CMD command_translated model
  if !(respOk w.command_resp) then
    if w.command_resp.status_code == 401 then
      respond w (.text "Unauthorized. Access Token or Vehicle ID seems to be wrong!") model.INPUT_CMD 401
    else
      respond w (.apiErr w.command_resp.payload) model.INPUT_CMD 502
  else
    match pyContains w.command_resp.payload "response" with
    | .error e => .error e
    | .ok false =>
      respond w (.text ("Command " ++ model.INPUT_CMD ++ " executed successfully")) model.INPUT_CMD 200
    | .ok true =>
      match pyIndex w.command_resp.payload "response" with
      | .error e => .error e
      | .ok inner =>
        match pyIndex inner "result" with
        | .error e => .error e
        | .ok v =>
          if truthy v then
            respond w (.text ("Command " ++ model.INPUT_CMD ++ " executed successfully")) model.INPUT_CMD 200
          else
            respond w (.apiErr w.command_resp.payload) model.INPUT_CMD 502

/-- Which exceptions the `except (TimeoutError, KeyError)` clause at
line 85 catches. -/
def wakeCatchable : PyErr → Bool
  | .timeoutError _ => true
  | .keyError _ => true
  | _ => false

/-- The JSON body of a POST after `req.get_json()`: either pydantic
rejects it (`ValidationError` with message `m`) or it validates. -/
inductive PostBody where
  | badModel (m : String) : PostBody
  | valid (model : RequestModel) : PostBody

/-- `parse_post_request` (lines 73-107): validation, command-table
check, optional wake-up gate with its two-exception catch, then the
outbound call and classification. -/
def parse_post_request (body : PostBody) (w : World) : Except PyErr HttpResponse :=
  match body with
  | .badModel em => respond w (.text ("Validation error " ++ em)) "" 400
  | .valid model =>
    match COMMAND_ADAPTER.lookup model.INPUT_CMD with
    | none => respond w (.text ("Unknown command " ++ model.INPUT_CMD)) model.INPUT_CMD 400
    | some command_translated =>
      if model.FORCE_WAKEUP then
        match force_wakeup w.polls with
        | .ok _ => classify_command_response model command_translated w
        | .error e =>
          if wakeCatchable e then
            respond w (.wakeErr (pyStrOfErr e)) model.INPUT_CMD 502
          else .error e
      else classify_command_response model command_translated w

/-- An inbound request: HTTP method and the outcome of `req.get_json()`
(`.error` when the body is not JSON and `get_json` raises). -/
structure HttpRequest where
  method : String
  getJson : Except PyErr PostBody

/-- Contents of the `try` block of `main`'s POST branch:
`parse_post_request(req.get_json())` (plus `setup_telegram()`, whose
effect the `World` already carries). -/
def handle_post (req : HttpRequest) (w : World) : Except PyErr HttpResponse :=
  match req.getJson with
  | .error e => .error e
  | .ok body => parse_post_request body w

/-- `main` (lines 57-70): GET liveness answer, POST wrapped in the
catch-all `except Exception` that falls back to a 500 envelope (whose
own `respond` call may itself raise), 400 for any other method. Named
`TeslaAPI.main` because a root-level `main` is reserved. -/
def TeslaAPI.main (req : HttpRequest) (w : World) : Except PyErr HttpResponse :=
  if req.method == "GET" then
    respond w (.text "Tesla API Relay running successfully") "" 200
  else if req.method == "POST" then
    match handle_post req w with
    | .ok r => .ok r
    | .error e => respond w (.text ("Server error " ++ pyStrOfErr e)) "" 500
  else
    respond w (.text ("Unsupported method " ++ req.method)) "" 400

/-- Wake-poll oracle that always reports the vehicle offline. -/
def pollsOffline : Nat → Json := fun _ => jobj [("response", jobj [("state", Json.str "offline")])]

/-- Wake-poll oracle that always reports the vehicle online. -/
def pollsOnline : Nat → Json := fun _ => jobj [("response", jobj [("state", Json.str "online")])]

/-- Wake-poll oracle answering an empty object: no `response` field. -/
def pollsNoState : Nat → Json := fun _ => jobj []

/-- A command payload whose `result` flag is true. -/
def okResultPayload : Json := jobj [("response", jobj [("result", Json.bool true)])]

/-- A command payload whose `result` flag is false. -/
def falsyResultPayload : Json := jobj [("response", jobj [("result", Json.bool false)])]

/-- A 200 payload with no `response` key at all. -/
def noResponseKeyPayload : Json := jobj [("reason", Json.str "ok")]

/-- A valid request for a recognized command, no forced wake-up. -/
def mHonk : RequestModel := ⟨"token123", "veh1", "honk_horn", none, none, false⟩

/-- A valid request for a recognized command with forced wake-up. -/
def mHonkWake : RequestModel := ⟨"token123", "veh1", "honk_horn", none, none, true⟩

/-- A valid request naming a command absent from the table. -/
def mUnknown : RequestModel := ⟨"token123", "veh1", "fly_to_moon", none, none, false⟩

/-- Environment delivering HTTP 200 with a falsy result flag. -/
def wFalsy : World := ⟨pollsOnline, ⟨200, falsyResultPayload⟩, none, .succeeds⟩

/-- Environment delivering HTTP 401. -/
def wUnauthorized : World := ⟨pollsOnline, ⟨401, jobj [("error", Json.str "bad token")]⟩, none, .succeeds⟩

/-- Environment delivering HTTP 200 without a `response` key. -/
def wNoRespKey : World := ⟨pollsOnline, ⟨200, noResponseKeyPayload⟩, none, .succeeds⟩

/-- Environment for the unknown-command runs. -/
def wPlain : World := ⟨pollsOffline, ⟨200, okResultPayload⟩, none, .succeeds⟩

/-- A second, observably different environment (other polls, other
command reply) used to show the unknown-command answer ignores both. -/
def wPlainAlt : World := ⟨pollsOnline, ⟨502, falsyResultPayload⟩, none, .succeeds⟩

/-- Environment whose wake polls lack the state field. -/
def wMalformedWake : World := ⟨pollsNoState, ⟨200, okResultPayload⟩, none, .succeeds⟩

/-- A loaded Telegram configuration. -/
def cexBot : TelegramConfig := ⟨"bot-token", "chat-1"⟩

/-- Environment with Telegram loaded and a working sender. -/
def cexWorldOk : World := ⟨pollsOnline, ⟨200, okResultPayload⟩, some cexBot, .succeeds⟩

/-- Environment with Telegram loaded and a sender that raises. -/
def cexWorldRaise : World := ⟨pollsOnline, ⟨200, okResultPayload⟩, some cexBot, .raises "network down"⟩

/-- A POST request carrying the unknown-command body. -/
def cexReq : HttpRequest := ⟨"POST", .ok (.valid mUnknown)⟩

/-- A plain GET request. -/
def liveReq : HttpRequest := ⟨"GET", .ok (.valid mHonk)⟩

/-- The liveness response of the GET branch. -/
def liveResp : HttpResponse :=
  mkHttpResponse (envelopeJson "" (.text "Tesla API Relay running successfully") 200) 200

/-- One loop iteration from a running state when the poll answers. -/
theorem wakeStep_running_ok (r : Json) (c : Nat) (b : Bool) (h : is_tesla_awake r = .ok b) :
    wakeStep r (.running c) =
      (if c + 2 > TIMEOUT_WAKEUP then .timedOut (c + 2)
       else if b then .done (c + 2 + 2)
       else .running (c + 2)) := by
  show (match is_tesla_awake r with
        | .error e => LoopState.failed e
        | .ok awake =>
          if c + 2 > TIMEOUT_WAKEUP then .timedOut (c + 2)
          else if awake then .done (c + 2 + 2)
          else .running (c + 2)) = _
  rw [h]

/-- One loop iteration from a running state when the poll raises. -/
theorem wakeStep_running_err (r : Json) (c : Nat) (e : PyErr) (h : is_tesla_awake r = .error e) :
    wakeStep r (.running c) = .failed e := by
  show (match is_tesla_awake r with
        | .error e => LoopState.failed e
        | .ok awake =>
          if c + 2 > TIMEOUT_WAKEUP then .timedOut (c + 2)
          else if awake then .done (c + 2 + 2)
          else .running (c + 2)) = _
  rw [h]

/-- Unfolding of `force_wakeup` through the iterated loop. -/
theorem force_wakeup_eq (polls : Nat → Json) :
    force_wakeup polls =
      (match wakeIter polls 16 with
       | .done e => .ok e
       | .timedOut _ => .error (.timeoutError timeoutErrorMsg)
       | .failed e => .error e
       | .running _ => .error (.timeoutError timeoutErrorMsg)) := rfl

/-- A finished loop state is unchanged by further iterations. -/
theorem wakeStep_done (r : Json) (e : Nat) : wakeStep r (.done e) = .done e := rfl

/-- A timed-out loop state is unchanged by further iterations. -/
theorem wakeStep_timedOut (r : Json) (e : Nat) : wakeStep r (.timedOut e) = .timedOut e := rfl

/-- A failed loop state is unchanged by further iterations. -/
theorem wakeStep_failed (r : Json) (e : PyErr) : wakeStep r (.failed e) = .failed e := rfl

/-- `wakeIter polls n` only consults the first `n + 1` poll payloads. -/
theorem wakeIter_congr (polls polls' : Nat → Json) :
    ∀ n, (∀ i, i ≤ n → polls' i = polls i) → wakeIter polls' n = wakeIter polls n := by
  intro n
  induction n with
  | zero =>
    intro h
    show wakeInit (polls' 0) = wakeInit (polls 0)
    rw [h 0 (Nat.le_refl 0)]
  | succ n ih =>
    intro h
    show wakeStep (polls' (n + 1)) (wakeIter polls' n) = wakeStep (polls (n + 1)) (wakeIter polls n)
    rw [h (n + 1) (Nat.le_refl _), ih (fun i hi => h i (Nat.le_succ_of_le hi))]

/-- Once the loop has reached a non-running state it stays there. -/
theorem wakeIter_stable (polls : Nat → Json) (k : Nat) (s : LoopState)
    (hs : ∀ c, s ≠ .running c) (hk : wakeIter polls k = s) :
    ∀ m, k ≤ m → wakeIter polls m = s := by
  intro m
  induction m with
  | zero =>
    intro hm
    have hk0 : k = 0 := Nat.le_zero.mp hm
    rw [hk0] at hk
    exact hk
  | succ n ih =>
    intro hm
    by_cases hkn : k ≤ n
    · have hn := ih hkn
      show wakeStep (polls (n + 1)) (wakeIter polls n) = s
      rw [hn]
      cases s with
      | running c => exact absurd rfl (hs c)
      | done e => rfl
      | timedOut e => rfl
      | failed e => rfl
    · have hkn' : k = n + 1 := by omega
      rw [hkn'] at hk
      exact hk

/-- While every poll up to `n` reports offline and `n ≤ 15`, the loop is
still running after `n` iterations with `counter = 2 * n`: elapsed
polling time `2 * n ≤ 30` has not yet raised the timeout. -/
theorem wakeIter_offline (polls : Nat → Json) :
    ∀ n, n ≤ 15 → (∀ i, i ≤ n → is_tesla_awake (polls i) = .ok false) →
    wakeIter polls n = .running (2 * n) := by
  intro n
  induction n with
  | zero =>
    intro _ h
    show wakeInit (polls 0) = _
    rw [wakeInit, h 0 (Nat.le_refl 0)]
  | succ n ih =>
    intro hn h
    have hrun := ih (by omega) (fun i hi => h i (by omega))
    show wakeStep (polls (n + 1)) (wakeIter polls n) = _
    rw [hrun, wakeStep_running_ok (polls (n + 1)) (2 * n) false (h (n + 1) (Nat.le_refl _))]
    rw [if_neg (by simp only [TIMEOUT_WAKEUP]; omega)]
    rw [if_neg (by simp)]
    have harith : 2 * n + 2 = 2 * (n + 1) := by ring
    rw [harith]

/-- In a running state after `n` iterations the counter is `2 * n`. -/
theorem wakeIter_running_counter (polls : Nat → Json) :
    ∀ n c, wakeIter polls n = .running c → c = 2 * n := by
  intro n
  induction n with
  | zero =>
    intro c h
    have h' : wakeInit (polls 0) = .running c := h
    rw [wakeInit] at h'
    cases ha : is_tesla_awake (polls 0) with
    | error e => rw [ha] at h'; exact LoopState.noConfusion h'
    | ok b =>
      rw [ha] at h'
      cases b with
      | true => exact LoopState.noConfusion h'
      | false =>
        have := LoopState.running.inj h'
        omega
  | succ n ih =>
    intro c h
    have h' : wakeStep (polls (n + 1)) (wakeIter polls n) = .running c := h
    cases hs : wakeIter polls n with
    | done e => rw [hs, wakeStep_done] at h'; exact LoopState.noConfusion h'
    | timedOut e => rw [hs, wakeStep_timedOut] at h'; exact LoopState.noConfusion h'
    | failed e => rw [hs, wakeStep_failed] at h'; exact LoopState.noConfusion h'
    | running c' =>
      have hc' : c' = 2 * n := ih c' hs
      rw [hs] at h'
      cases ha : is_tesla_awake (polls (n + 1)) with
      | error e => rw [wakeStep_running_err _ _ _ ha] at h'; exact LoopState.noConfusion h'
      | ok awake =>
        rw [wakeStep_running_ok _ _ _ ha] at h'
        by_cases ht : c' + 2 > TIMEOUT_WAKEUP
        · rw [if_pos ht] at h'; exact LoopState.noConfusion h'
        · rw [if_neg ht] at h'
          cases awake with
          | true => rw [if_pos rfl] at h'; exact LoopState.noConfusion h'
          | false =>
            rw [if_neg (by simp)] at h'
            have := LoopState.running.inj h'
            omega

/-- After 16 iterations the loop is never still running: the counter
would be 32 and the iteration from counter 30 already times out. -/
theorem wakeIter_sixteen_not_running (polls : Nat → Json) (c : Nat) :
    wakeIter polls 16 ≠ .running c := by
  intro h
  have h' : wakeStep (polls 16) (wakeIter polls 15) = .running c := h
  cases hs : wakeIter polls 15 with
  | done e => rw [hs, wakeStep_done] at h'; exact LoopState.noConfusion h'
  | timedOut e => rw [hs, wakeStep_timedOut] at h'; exact LoopState.noConfusion h'
  | failed e => rw [hs, wakeStep_failed] at h'; exact LoopState.noConfusion h'
  | running c' =>
    have hc' : c' = 30 := wakeIter_running_counter polls 15 c' hs
    rw [hs, hc'] at h'
    cases ha : is_tesla_awake (polls 16) with
    | error e => rw [wakeStep_running_err _ _ _ ha] at h'; exact LoopState.noConfusion h'
    | ok awake =>
      rw [wakeStep_running_ok _ _ _ ha, if_pos (by simp only [TIMEOUT_WAKEUP]; omega)] at h'
      exact LoopState.noConfusion h'

/-- C1: when the vehicle never reports online, `force_wakeup` raises the
timeout, and it does so exactly when elapsed polling time strictly
exceeds the 30-second ceiling: after 15 iterations (elapsed = 30 = the
ceiling) the loop is still polling, and iteration 16 (elapsed = 32 > 30)
raises the `TimeoutError`. -/
theorem wakeup_timeout_strict_boundary (polls : Nat → Json)
    (h : ∀ i, is_tesla_awake (polls i) = .ok false) :
    force_wakeup polls = .error (.timeoutError timeoutErrorMsg)
    ∧ wakeIter polls 15 = .running TIMEOUT_WAKEUP
    ∧ wakeIter polls 16 = .timedOut 32
    ∧ TIMEOUT_WAKEUP < 32 := by
  have h15 : wakeIter polls 15 = .running 30 := wakeIter_offline polls 15 (by omega) (fun i _ => h i)
  have h16 : wakeIter polls 16 = .timedOut 32 := by
    have h' : wakeIter polls 16 = wakeStep (polls 16) (wakeIter polls 15) := rfl
    rw [h', h15, wakeStep_running_ok _ _ _ (h 16), if_pos (by simp only [TIMEOUT_WAKEUP]; omega)]
  refine ⟨?_, h15, h16, by simp only [TIMEOUT_WAKEUP]; omega⟩
  rw [force_wakeup_eq, h16]

/-- C7: if the first poll reports online, `force_wakeup` returns
normally with a total wait of exactly the 2-second settle delay, and it
issues no further polls: any oracle agreeing on the first poll gives the
same outcome. -/
theorem wakeup_first_poll_online_settle_only (polls polls' : Nat → Json)
    (h : is_tesla_awake (polls 0) = .ok true)
    (h0 : polls' 0 = polls 0) :
    force_wakeup polls = .ok 2 ∧ force_wakeup polls' = .ok 2 := by
  have hnotrun : ∀ c, LoopState.done 2 ≠ LoopState.running c := fun c hc => LoopState.noConfusion hc
  have hi : wakeIter polls 0 = .done 2 := by
    show wakeInit (polls 0) = _
    rw [wakeInit, h]
  have hi' : wakeIter polls' 0 = .done 2 := by
    show wakeInit (polls' 0) = _
    rw [h0, wakeInit, h]
  have h16 := wakeIter_stable polls 0 (.done 2) hnotrun hi 16 (by omega)
  have h16' := wakeIter_stable polls' 0 (.done 2) hnotrun hi' 16 (by omega)
  constructor
  · rw [force_wakeup_eq, h16]
  · rw [force_wakeup_eq, h16']

/-- Data of a string concatenation. -/
theorem strDataAppend (a b : String) : (a ++ b).data = a.data ++ b.data := by
  cases a
  cases b
  rfl

/-- A repr-quoted `KeyError` text never equals the timeout text: the
first begins with a quote, the second with a letter. -/
theorem keyErrStr_ne_timeoutMsg (em : String) : ("\x27" ++ em ++ "\x27") ≠ timeoutErrorMsg := by
  intro heq
  have h1 : (("\x27" ++ em) ++ "\x27").data.head? = timeoutErrorMsg.data.head? := by rw [heq]
  rw [strDataAppend, strDataAppend] at h1
  simp [timeoutErrorMsg, strDataAppend] at h1

/-- Without a Telegram bot, `respond` always returns the envelope. -/
theorem respond_telegram_none (w : World) (msg : Msg) (c : String) (sc : Nat)
    (h : w.telegram = none) :
    respond w msg c sc = .ok (mkHttpResponse (envelopeJson c msg sc) sc) := by
  simp [respond, h]

/-- A 200 `respond` never notifies, hence always returns the envelope. -/
theorem respond_status_200 (w : World) (msg : Msg) (c : String) :
    respond w msg c 200 = .ok (mkHttpResponse (envelopeJson c msg 200) 200) := by
  simp [respond]

/-- C8: a wake poll whose payload lacks the `response`/`state` field
makes the gate fail fast: the `KeyError` ends the loop at that poll, the
outcome ignores every later poll (any oracle agreeing up to poll `k`
gives the same result), and the request is aborted with a 502 envelope
whose message differs from the timeout message. -/
theorem malformed_wake_aborts_502 (w : World) (polls' : Nat → Json) (k : Nat)
    (m : RequestModel) (ct : String) (em : String)
    (hk : k ≤ 16)
    (hoff : ∀ i, i < k → is_tesla_awake (w.polls i) = .ok false)
    (hbad : is_tesla_awake (w.polls k) = .error (.keyError em))
    (hagree : ∀ i, i ≤ k → polls' i = w.polls i)
    (hcmd : COMMAND_ADAPTER.lookup m.INPUT_CMD = some ct)
    (hforce : m.FORCE_WAKEUP = true)
    (htg : w.telegram = none) :
    force_wakeup w.polls = .error (.keyError em)
    ∧ force_wakeup polls' = .error (.keyError em)
    ∧ parse_post_request (.valid m) w =
        .ok (mkHttpResponse (envelopeJson m.INPUT_CMD (.wakeErr ("\x27" ++ em ++ "\x27")) 502) 502)
    ∧ ("\x27" ++ em ++ "\x27") ≠ timeoutErrorMsg := by
  have hnotrun : ∀ c, LoopState.failed (.keyError em) ≠ LoopState.running c :=
    fun c hc => LoopState.noConfusion hc
  have hfk : wakeIter w.polls k = .failed (.keyError em) := by
    cases k with
    | zero =>
      show wakeInit (w.polls 0) = _
      rw [wakeInit, hbad]
    | succ n =>
      have hn : wakeIter w.polls n = .running (2 * n) :=
        wakeIter_offline _ n (by omega) (fun i hi => hoff i (by omega))
      show wakeStep (w.polls (n + 1)) (wakeIter w.polls n) = _
      rw [hn, wakeStep_running_err _ _ _ hbad]
  have h16 : wakeIter w.polls 16 = .failed (.keyError em) :=
    wakeIter_stable _ k _ hnotrun hfk 16 hk
  have hforce1 : force_wakeup w.polls = .error (.keyError em) := by
    rw [force_wakeup_eq, h16]
  have hfk' : wakeIter polls' k = .failed (.keyError em) := by
    rw [wakeIter_congr w.polls polls' k hagree]
    exact hfk
  have h16' : wakeIter polls' 16 = .failed (.keyError em) :=
    wakeIter_stable _ k _ hnotrun hfk' 16 hk
  have hforce2 : force_wakeup polls' = .error (.keyError em) := by
    rw [force_wakeup_eq, h16']
  refine ⟨hforce1, hforce2, ?_, keyErrStr_ne_timeoutMsg em⟩
  simp only [parse_post_request, hcmd, hforce, if_true, hforce1, wakeCatchable]
  exact respond_telegram_none _ _ _ _ htg

/-- C5: a well-formed POST whose command is not in the table yields 400
with the name echoed in both the message and the command field, and the
answer is computed without the outbound call or the wake-up gate: any
environment (arbitrary polls and command reply, no bot loaded) produces
the identical envelope. -/
theorem unknown_command_echoed_400 (m : RequestModel) (w w' : World)
    (hcmd : COMMAND_ADAPTER.lookup m.INPUT_CMD = none)
    (htg : w.telegram = none)
    (htg' : w'.telegram = none) :
    parse_post_request (.valid m) w =
      .ok (mkHttpResponse (envelopeJson m.INPUT_CMD (.text ("Unknown command " ++ m.INPUT_CMD)) 400) 400)
    ∧ parse_post_request (.valid m) w' = parse_post_request (.valid m) w := by
  have e1 : parse_post_request (.valid m) w =
      .ok (mkHttpResponse (envelopeJson m.INPUT_CMD (.text ("Unknown command " ++ m.INPUT_CMD)) 400) 400) := by
    simp only [parse_post_request, hcmd]
    exact respond_telegram_none _ _ _ _ htg
  have e2 : parse_post_request (.valid m) w' =
      .ok (mkHttpResponse (envelopeJson m.INPUT_CMD (.text ("Unknown command " ++ m.INPUT_CMD)) 400) 400) := by
    simp only [parse_post_request, hcmd]
    exact respond_telegram_none _ _ _ _ htg'
  exact ⟨e1, by rw [e1, e2]⟩

/-- The non-ok 401 branch of the response classification. -/
theorem classify_401 (m : RequestModel) (ct : String) (w : World)
    (hst : w.command_resp.status_code = 401)
    (htg : w.telegram = none) :
    classify_command_response m ct w =
      .ok (mkHttpResponse (envelopeJson m.INPUT_CMD
        (.text "Unauthorized. Access Token or Vehicle ID seems to be wrong!") 401) 401) := by
  have hok : respOk w.command_resp = false := by simp [respOk, hst]
  simp only [classify_command_response, hok, Bool.not_false, if_true, hst]
  simp only [beq_self_eq_true, if_true]
  exact respond_telegram_none _ _ _ _ htg

/-- Splitting `parse_post_request` on a recognized command once the
wake-up gate (when requested) has succeeded. -/
theorem parse_to_classify (m : RequestModel) (ct : String) (w : World)
    (hcmd : COMMAND_ADAPTER.lookup m.INPUT_CMD = some ct)
    (hwake : m.FORCE_WAKEUP = true → ∃ n, force_wakeup w.polls = .ok n) :
    parse_post_request (.valid m) w = classify_command_response m ct w := by
  simp only [parse_post_request, hcmd]
  cases hf : m.FORCE_WAKEUP with
  | false => simp
  | true =>
    obtain ⟨n, hn⟩ := hwake hf
    simp [hn]

/-- C4: a recognized command whose outbound call answers HTTP 401 yields
the fixed unauthorized message with status 401, whatever the payload. -/
theorem upstream_401_unauthorized (m : RequestModel) (ct : String) (w : World)
    (hcmd : COMMAND_ADAPTER.lookup m.INPUT_CMD = some ct)
    (hwake : m.FORCE_WAKEUP = true → ∃ n, force_wakeup w.polls = .ok n)
    (hst : w.command_resp.status_code = 401)
    (htg : w.telegram = none) :
    parse_post_request (.valid m) w =
      .ok (mkHttpResponse (envelopeJson m.INPUT_CMD
        (.text "Unauthorized. Access Token or Vehicle ID seems to be wrong!") 401) 401) := by
  rw [parse_to_classify m ct w hcmd hwake]
  exact classify_401 m ct w hst htg

/-- C2: a recognized command whose outbound call answers HTTP 200 with a
payload whose own `result` flag is falsy yields the 502 upstream-error
envelope wrapping the payload, and in particular not the 200 success
envelope. -/
theorem ok200_falsy_result_502 (m : RequestModel) (ct : String) (w : World) (inner v : Json)
    (hcmd : COMMAND_ADAPTER.lookup m.INPUT_CMD = some ct)
    (hwake : m.FORCE_WAKEUP = true → ∃ n, force_wakeup w.polls = .ok n)
    (hst : w.command_resp.status_code = 200)
    (hkey : pyContains w.command_resp.payload "response" = .ok true)
    (hresp : pyIndex w.command_resp.payload "response" = .ok inner)
    (hres : pyIndex inner "result" = .ok v)
    (hv : truthy v = false)
    (htg : w.telegram = none) :
    parse_post_request (.valid m) w =
      .ok (mkHttpResponse (envelopeJson m.INPUT_CMD (.apiErr w.command_resp.payload) 502) 502)
    ∧ parse_post_request (.valid m) w ≠
      .ok (mkHttpResponse (envelopeJson m.INPUT_CMD
        (.text ("Command " ++ m.INPUT_CMD ++ " executed successfully")) 200) 200) := by
  have hok : respOk w.command_resp = true := by simp [respOk, hst]
  have e1 : parse_post_request (.valid m) w =
      .ok (mkHttpResponse (envelopeJson m.INPUT_CMD (.apiErr w.command_resp.payload) 502) 502) := by
    rw [parse_to_classify m ct w hcmd hwake]
    simp only [classify_command_response, hok, Bool.not_true, Bool.false_eq_true, if_false,
      hkey, hresp, hres, hv, Bool.false_eq_true, if_false]
    exact respond_telegram_none _ _ _ _ htg
  refine ⟨e1, ?_⟩
  rw [e1]
  intro hcontra
  have h1 := Except.ok.inj hcontra
  have h2 := congrArg HttpResponse.status_code h1
  simp [mkHttpResponse] at h2

/-- C10: a recognized command whose outbound call answers a success
status with a payload containing no `response` key at all yields the 200
success envelope naming the executed command. -/
theorem ok_missing_response_key_success (m : RequestModel) (ct : String) (w : World)
    (hcmd : COMMAND_ADAPTER.lookup m.INPUT_CMD = some ct)
    (hwake : m.FORCE_WAKEUP = true → ∃ n, force_wakeup w.polls = .ok n)
    (hst : w.command_resp.status_code = 200)
    (hnokey : pyContains w.command_resp.payload "response" = .ok false) :
    parse_post_request (.valid m) w =
      .ok (mkHttpResponse (envelopeJson m.INPUT_CMD
        (.text ("Command " ++ m.INPUT_CMD ++ " executed successfully")) 200) 200) := by
  have hok : respOk w.command_resp = true := by simp [respOk, hst]
  rw [parse_to_classify m ct w hcmd hwake]
  simp only [classify_command_response, hok, Bool.not_true, Bool.false_eq_true, if_false, hnokey]
  exact respond_status_200 _ _ _

/-- C6: the two logical commands sharing the `actuate_trunk` vendor
endpoint synthesize the discriminator `which_trunk` as exactly `front`
for `actuate_frunk` and exactly `rear` for `actuate_trunk`, whatever the
rest of the request, and the two bodies are distinct. -/
theorem compartment_discriminator :
    COMMAND_ADAPTER.lookup "actuate_frunk" = some "actuate_trunk"
    ∧ COMMAND_ADAPTER.lookup "actuate_trunk" = some "actuate_trunk"
    ∧ (∀ m : RequestModel,
        gather_body_params "actuate_frunk" "actuate_trunk" m = jobj [("which_trunk", Json.str "front")]
        ∧ gather_body_params "actuate_trunk" "actuate_trunk" m = jobj [("which_trunk", Json.str "rear")])
    ∧ jobj [("which_trunk", Json.str "front")] ≠ jobj [("which_trunk", Json.str "rear")] := by
  refine ⟨rfl, rfl, fun m => ⟨rfl, rfl⟩, by decide⟩

/-- Every `respond` that returns produced the standard envelope with the
HTTP status equal to the embedded statusCode. -/
theorem respond_ok_shape (w : World) (msg : Msg) (c : String) (sc : Nat) (r : HttpResponse)
    (h : respond w msg c sc = .ok r) :
    r = mkHttpResponse (envelopeJson c msg sc) sc := by
  unfold respond at h
  by_cases hc : (w.telegram.isSome && sc != 200) = true
  · rw [if_pos hc] at h
    cases hch : teslaAsleepCheck msg with
    | error e =>
      rw [hch] at h
      exact Except.noConfusion h
    | ok b =>
      rw [hch] at h
      cases hn : w.notify with
      | succeeds =>
        rw [hn] at h
        exact (Except.ok.inj h).symm
      | raises em =>
        rw [hn] at h
        exact Except.noConfusion h
  · rw [if_neg hc] at h
    exact (Except.ok.inj h).symm

/-- Every returning run of the classification produced an envelope
naming the executed command. -/
theorem classify_ok_shape (m : RequestModel) (ct : String) (w : World) (r : HttpResponse)
    (h : classify_command_response m ct w = .ok r) :
    ∃ msg sc, r = mkHttpResponse (envelopeJson m.INPUT_CMD msg sc) sc := by
  simp only [classify_command_response] at h
  repeat' split at h
  all_goals
    first
    | exact Except.noConfusion h
    | exact ⟨_, _, respond_ok_shape _ _ _ _ _ h⟩

/-- Every returning run of `parse_post_request` produced an envelope. -/
theorem parse_ok_shape (body : PostBody) (w : World) (r : HttpResponse)
    (h : parse_post_request body w = .ok r) :
    ∃ c msg sc, r = mkHttpResponse (envelopeJson c msg sc) sc := by
  cases body with
  | badModel em =>
    simp only [parse_post_request] at h
    exact ⟨_, _, _, respond_ok_shape _ _ _ _ _ h⟩
  | valid m =>
    simp only [parse_post_request] at h
    repeat' split at h
    all_goals
      first
      | exact Except.noConfusion h
      | exact ⟨_, _, _, respond_ok_shape _ _ _ _ _ h⟩
      | (obtain ⟨msg, sc, hr⟩ := classify_ok_shape _ _ _ _ h; exact ⟨_, msg, sc, hr⟩)

/-- C9: every response the relay returns, on any path, is the JSON
envelope `\x7bcommand, msg, statusCode\x7d` whose HTTP status code equals the
statusCode field and whose only header is Content-Type
application/json. -/
theorem main_always_envelope (req : HttpRequest) (w : World) (r : HttpResponse)
    (h : TeslaAPI.main req w = .ok r) :
    ∃ c msg sc,
      r = mkHttpResponse (envelopeJson c msg sc) sc
      ∧ r.status_code = sc
      ∧ r.headers = [("Content-Type", "application/json")] := by
  have shape : ∃ c msg sc, r = mkHttpResponse (envelopeJson c msg sc) sc := by
    unfold TeslaAPI.main at h
    split at h
    · exact ⟨_, _, _, respond_ok_shape _ _ _ _ _ h⟩
    · split at h
      · cases hp : handle_post req w with
        | ok r' =>
          rw [hp] at h
          have hr := Except.ok.inj h
          cases hj : req.getJson with
          | error e =>
            unfold handle_post at hp
            rw [hj] at hp
            exact Except.noConfusion hp
          | ok body =>
            unfold handle_post at hp
            rw [hj] at hp
            obtain ⟨c, msg, sc, hshape⟩ := parse_ok_shape body w r' hp
            exact ⟨c, msg, sc, hr ▸ hshape⟩
        | error e =>
          rw [hp] at h
          exact ⟨_, _, _, respond_ok_shape _ _ _ _ _ h⟩
      · exact ⟨_, _, _, respond_ok_shape _ _ _ _ _ h⟩
  obtain ⟨c, msg, sc, hshape⟩ := shape
  refine ⟨c, msg, sc, hshape, ?_, ?_⟩
  · rw [hshape]
    rfl
  · rw [hshape]
    rfl

/-- C3 counterexample: with the Telegram bot loaded and a non-200
primary outcome (here the 400 unknown-command envelope), a raising
`send_message` changes the result: the working sender returns the 400
envelope, the raising sender makes the whole request end in the
exception, because `respond` raises before building the response, the
`except` block's own 500 `respond` notifies again and raises again. -/
theorem notify_failure_alters_response_cex :
    TeslaAPI.main cexReq cexWorldOk =
      .ok (mkHttpResponse (envelopeJson "fly_to_moon" (.text "Unknown command fly_to_moon") 400) 400)
    ∧ TeslaAPI.main cexReq cexWorldRaise = .error (.exn "network down")
    ∧ TeslaAPI.main cexReq cexWorldRaise ≠ TeslaAPI.main cexReq cexWorldOk := by
  have h1 : TeslaAPI.main cexReq cexWorldOk =
      .ok (mkHttpResponse (envelopeJson "fly_to_moon" (.text "Unknown command fly_to_moon") 400) 400) := by rfl
  have h2 : TeslaAPI.main cexReq cexWorldRaise = .error (.exn "network down") := by rfl
  refine ⟨h1, h2, ?_⟩
  rw [h1, h2]
  intro hcontra
  exact Except.noConfusion hcontra

/-- C3 amended: when the notification send raises, the failure does
propagate: `respond` aborts without the envelope, and `main`'s POST
handler, whose fallback 500 `respond` notifies and raises again, lets
the exception escape, so the caller receives no envelope at all. Stated
for a non-200 primary of the unknown-command form whose texts do not
contain the `Tesla API error` marker (as any real command name and bot
failure text do). -/
theorem notify_failure_propagates (m : RequestModel) (w : World) (cfg : TelegramConfig) (em : String)
    (htg : w.telegram = some cfg)
    (hn : w.notify = .raises em)
    (hcmd : COMMAND_ADAPTER.lookup m.INPUT_CMD = none)
    (hs1 : strHasSub ("Unknown command " ++ m.INPUT_CMD) "Tesla API error" = false)
    (hs2 : strHasSub ("Server error " ++ em) "Tesla API error" = false) :
    parse_post_request (.valid m) w = .error (.exn em)
    ∧ TeslaAPI.main ⟨"POST", .ok (.valid m)⟩ w = .error (.exn em) := by
  have hp : parse_post_request (.valid m) w = .error (.exn em) := by
    simp only [parse_post_request, hcmd]
    simp [respond, htg, hn, teslaAsleepCheck, hs1]
  refine ⟨hp, ?_⟩
  simp only [TeslaAPI.main, handle_post]
  simp only [show (("POST" == "GET") = false) from rfl, Bool.false_eq_true, if_false,
    show (("POST" == "POST") = true) from rfl, if_true, hp]
  simp [respond, htg, hn, teslaAsleepCheck, pyStrOfErr, hs2]

/-- Concrete run of the C1 timeout boundary on an always-offline oracle. -/
theorem wakeup_timeout_strict_boundary_witness :
    is_tesla_awake (pollsOffline 0) = .ok false
    ∧ (force_wakeup pollsOffline = .error (.timeoutError timeoutErrorMsg)
       ∧ wakeIter pollsOffline 15 = .running TIMEOUT_WAKEUP
       ∧ wakeIter pollsOffline 16 = .timedOut 32
       ∧ TIMEOUT_WAKEUP < 32) :=
  ⟨rfl, wakeup_timeout_strict_boundary pollsOffline (fun _ => rfl)⟩

/-- Concrete run of the C2 falsy-result classification. -/
theorem ok200_falsy_result_502_witness :
    truthy (Json.bool false) = false
    ∧ (parse_post_request (.valid mHonk) wFalsy =
        .ok (mkHttpResponse (envelopeJson mHonk.INPUT_CMD (.apiErr wFalsy.command_resp.payload) 502) 502)
      ∧ parse_post_request (.valid mHonk) wFalsy ≠
        .ok (mkHttpResponse (envelopeJson mHonk.INPUT_CMD
          (.text ("Command " ++ mHonk.INPUT_CMD ++ " executed successfully")) 200) 200)) :=
  ⟨rfl, ok200_falsy_result_502 mHonk "honk_horn" wFalsy (jobj [("result", Json.bool false)])
    (Json.bool false) rfl (fun h => absurd h (by decide)) rfl rfl rfl rfl rfl rfl⟩

/-- Concrete run of the amended C3: the raising sender ends the request
in the exception instead of any envelope. -/
theorem notify_failure_propagates_witness :
    cexWorldRaise.telegram = some cexBot
    ∧ (parse_post_request (.valid mUnknown) cexWorldRaise = .error (.exn "network down")
       ∧ TeslaAPI.main ⟨"POST", .ok (.valid mUnknown)⟩ cexWorldRaise = .error (.exn "network down")) :=
  ⟨rfl, notify_failure_propagates mUnknown cexWorldRaise cexBot "network down" rfl rfl rfl rfl rfl⟩

/-- Concrete run of the C4 unauthorized classification. -/
theorem upstream_401_unauthorized_witness :
    wUnauthorized.command_resp.status_code = 401
    ∧ parse_post_request (.valid mHonk) wUnauthorized =
      .ok (mkHttpResponse (envelopeJson mHonk.INPUT_CMD
        (.text "Unauthorized. Access Token or Vehicle ID seems to be wrong!") 401) 401) :=
  ⟨rfl, upstream_401_unauthorized mHonk "honk_horn" wUnauthorized rfl (fun h => absurd h (by decide)) rfl rfl⟩

/-- Concrete run of the C5 unknown-command rejection in two unrelated
environments. -/
theorem unknown_command_echoed_400_witness :
    COMMAND_ADAPTER.lookup mUnknown.INPUT_CMD = none
    ∧ (parse_post_request (.valid mUnknown) wPlain =
        .ok (mkHttpResponse (envelopeJson mUnknown.INPUT_CMD
          (.text ("Unknown command " ++ mUnknown.INPUT_CMD)) 400) 400)
      ∧ parse_post_request (.valid mUnknown) wPlainAlt = parse_post_request (.valid mUnknown) wPlain) :=
  ⟨rfl, unknown_command_echoed_400 mUnknown wPlain wPlainAlt rfl rfl rfl⟩

/-- Concrete C6 bodies for a sample request. -/
theorem compartment_discriminator_witness :
    gather_body_params "actuate_frunk" "actuate_trunk" mHonk = jobj [("which_trunk", Json.str "front")]
    ∧ gather_body_params "actuate_trunk" "actuate_trunk" mHonk = jobj [("which_trunk", Json.str "rear")] :=
  compartment_discriminator.2.2.1 mHonk

/-- Concrete run of the C7 first-poll-online case. -/
theorem wakeup_first_poll_online_settle_only_witness :
    is_tesla_awake (pollsOnline 0) = .ok true
    ∧ (force_wakeup pollsOnline = .ok 2 ∧ force_wakeup pollsOnline = .ok 2) :=
  ⟨rfl, wakeup_first_poll_online_settle_only pollsOnline pollsOnline rfl rfl⟩

/-- Concrete run of the C8 malformed wake poll (empty object payload on
the very first poll). -/
theorem malformed_wake_aborts_502_witness :
    is_tesla_awake (wMalformedWake.polls 0) =
      .error (.keyError "Wakeup Response looks unfamiliar: \x7b\x7d")
    ∧ (force_wakeup wMalformedWake.polls =
        .error (.keyError "Wakeup Response looks unfamiliar: \x7b\x7d")
      ∧ force_wakeup pollsNoState =
        .error (.keyError "Wakeup Response looks unfamiliar: \x7b\x7d")
      ∧ parse_post_request (.valid mHonkWake) wMalformedWake =
          .ok (mkHttpResponse (envelopeJson mHonkWake.INPUT_CMD
            (.wakeErr ("\x27" ++ "Wakeup Response looks unfamiliar: \x7b\x7d" ++ "\x27")) 502) 502)
      ∧ ("\x27" ++ "Wakeup Response looks unfamiliar: \x7b\x7d" ++ "\x27") ≠ timeoutErrorMsg) :=
  ⟨rfl, malformed_wake_aborts_502 wMalformedWake pollsNoState 0 mHonkWake "honk_horn"
    "Wakeup Response looks unfamiliar: \x7b\x7d" (by omega) (fun i hi => absurd hi (by omega))
    rfl (fun _ _ => rfl) rfl rfl rfl⟩

/-- Concrete run of C9 on the GET liveness path. -/
theorem main_always_envelope_witness :
    TeslaAPI.main liveReq wPlain = .ok liveResp
    ∧ ∃ c msg sc,
        liveResp = mkHttpResponse (envelopeJson c msg sc) sc
        ∧ liveResp.status_code = sc
        ∧ liveResp.headers = [("Content-Type", "application/json")] :=
  ⟨rfl, main_always_envelope liveReq wPlain liveResp rfl⟩

/-- Concrete run of the C10 missing-response-key success path. -/
theorem ok_missing_response_key_success_witness :
    pyContains wNoRespKey.command_resp.payload "response" = .ok false
    ∧ parse_post_request (.valid mHonk) wNoRespKey =
      .ok (mkHttpResponse (envelopeJson mHonk.INPUT_CMD
        (.text ("Command " ++ mHonk.INPUT_CMD ++ " executed successfully")) 200) 200) :=
  ⟨rfl, ok_missing_response_key_success mHonk "honk_horn" wNoRespKey rfl (fun h => absurd h (by decide)) rfl rfl⟩
